import Mathlib

/-!
Shallow embedding of the soju-upload-handler-aws upload pipeline
(`src/unnamed/part_001`, the handler variant the spec describes; the
`filenameWithRandomSuffix` / `uniqueFilenameForBucket` helpers are identical
in `src/index.ts`).

External collaborators are modelled as explicit parameters:
  * the Node `Buffer` base64/utf-8 decoding step is total, so a request body
    is carried directly as its decoded byte list (`Option (List Nat)`;
    `none` models a `null`/absent body);
  * the `file-type` sniffing library is a function from the decoded bytes to
    an optional mime/extension pair;
  * `crypto.randomBytes(4).toString("hex")` is an externally supplied stream
    of suffix strings, indexed by how many suffixes were drawn so far;
  * `Date.now()` is an externally supplied number;
  * the S3 client is a `Store`: the outcome of a `HeadObjectCommand` per key
    (succeeds when the object exists, throws otherwise) and the outcome of
    the single `PutObjectCommand`.
-/

deriving instance DecidableEq for Except

namespace SojuUpload

/-! ### JavaScript string primitives

JavaScript `String.prototype.split` with a non-empty separator string,
implemented fuel-recursively over the character list so that it computes by
kernel reduction. The fuel `s.length + 1` is always sufficient: every
recursive step consumes at least one character of the remaining input.
-/

/-- One splitting pass: scan the input, cutting at each occurrence of `sep`. -/
def jsSplitAux (sep : List Char) : Nat → List Char → List Char → List (List Char)
  | 0, s, acc => [acc.reverse ++ s]
  | fuel + 1, s, acc =>
    match s with
    | [] => [acc.reverse]
    | c :: rest =>
      if sep.isPrefixOf (c :: rest) then
        acc.reverse :: jsSplitAux sep fuel (List.drop sep.length (c :: rest)) []
      else
        jsSplitAux sep fuel rest (c :: acc)

/-- JavaScript `s.split(sep)` for a non-empty separator `sep`. -/
def jsSplit (s sep : String) : List String :=
  (jsSplitAux sep.data (s.data.length + 1) s.data []).map String.mk

/-- JavaScript `s.slice(0, -k)` for `k > 0`: the end index clamps at 0,
so the result keeps the first `s.length - k` characters. -/
def jsSliceUpToNeg (s : String) (k : Nat) : String :=
  String.mk (s.data.take (s.data.length - k))

/-- JavaScript `s.startsWith(pre)`. -/
def jsStartsWith (s pre : String) : Bool :=
  pre.data.isPrefixOf s.data

/-! ### Key derivation (`filenameWithRandomSuffix`)

```js
const randomString = crypto.randomBytes(4).toString("hex");
const ext = filename.split(".").pop();
const name = ext != null ? filename.slice(0, -ext.length - 1) : filename;
const obfuscated = `$\x7bname\x7d-$\x7brandomString\x7d`;
const newFilename = ext != null ? obfuscated + "." + ext : obfuscated;
```

`Array.prototype.pop` yields `undefined` only on an empty array, and
`split` never returns an empty array, so `ext` is the last split piece;
the `none` branch below is the (dead) `ext == null` branch of the source.
The random string is passed in as the `randomString` argument. -/

def filenameWithRandomSuffix (filename randomString : String) : String :=
  match (jsSplit filename ".").getLast? with
  | some ext =>
    let name := jsSliceUpToNeg filename (ext.length + 1)
    name ++ "-" ++ randomString ++ "." ++ ext
  | none => filename ++ "-" ++ randomString

/-! ### The blob store -/

/-- Outcome of `client.send(new HeadObjectCommand ...)` for one key:
the promise resolves when the object exists; it rejects with a not-found
error when the key is free; it may also reject with any other error. -/
inductive HeadOutcome where
  | found
  | notFound
  | error (msg : String)
deriving DecidableEq

/-- The external S3 collaborator: the head-probe outcome per key, and the
outcome of the (single) put of this invocation (`Except.error msg` models
the `PutObjectCommand` promise rejecting with an error carrying `msg`). -/
structure Store where
  probe : String → HeadOutcome
  putResult : Except String Unit

/-! ### Key allocation (`uniqueFilenameForBucket`)

```js
if (attemptsRemaining === 0) \x7b throw new Error("Could not generate a unique filename"); \x7d
const newFilename = filenameWithRandomSuffix(filename);
try \x7b
  await client.send(command);        // resolves ⇒ the key is occupied
  return await uniqueFilenameForBucket(filename, bucketName, attemptsRemaining - 1);
\x7d catch \x7b
  return newFilename;               // any rejection lands here
\x7d
```

A `throw` is an `Except.error`. Note that the recursive call sits inside the
`try` block, so an exception thrown by the recursion (in particular the
attempts-exhausted error) is caught by this call's own `catch`, and that
the bare `catch` receives every rejection of the head probe, not only the
not-found one. `suffix i` is the `i`-th value drawn from the random stream,
`idx` counts how many were drawn before this call. -/

def uniqueFilenameForBucketAux (filename : String) (probe : String → HeadOutcome)
    (suffix : Nat → String) (idx attemptsRemaining : Nat) : Except String String :=
  match attemptsRemaining with
  | 0 => .error "Could not generate a unique filename"
  | n + 1 =>
    let newFilename := filenameWithRandomSuffix filename (suffix idx)
    match probe newFilename with
    | HeadOutcome.found =>
      match uniqueFilenameForBucketAux filename probe suffix (idx + 1) n with
      | .ok result => .ok result
      | .error _ => .ok newFilename
    | HeadOutcome.notFound => .ok newFilename
    | HeadOutcome.error _ => .ok newFilename

/-- `uniqueFilenameForBucket` as called by `upload`: the default
`attemptsRemaining = 3`. The bucket name only flows into the probe command,
so it is absorbed into the `probe` function. -/
def uniqueFilenameForBucket (filename : String) (probe : String → HeadOutcome)
    (suffix : Nat → String) : Except String String :=
  uniqueFilenameForBucketAux filename probe suffix 0 3

/-! ### The request, environment and response -/

/-- The fields of the inbound event that `upload` consults: the three
headers (a `Record<string, string | undefined>` lookup) and the body,
carried as its decoded bytes (`Buffer.from` decoding is total). -/
structure RequestEvent where
  contentType : Option String
  contentDisposition : Option String
  sojuUsername : Option String
  body : Option (List Nat)

/-- The two environment variables the handler reads. -/
structure Env where
  allowList : Option String
  cdnDomain : Option String

/-- The handler's response: status code, body, and the optional
`location` header. -/
structure Response where
  statusCode : Nat
  body : String
  location : Option String
deriving DecidableEq

/-- The handler's observable outcome: its response, whether the
`PutObjectCommand` was sent, and the `ContentType` it carried. -/
structure UploadOutcome where
  response : Response
  putAttempted : Bool
  putContentType : Option String
deriving DecidableEq

/-- `ALLOWED_MIME_TYPES` (the fixed allow-list taken from soju). -/
def ALLOWED_MIME_TYPES : List String :=
  ["application/pdf", "audio/aac", "audio/mp4", "audio/mpeg", "audio/ogg",
   "audio/webm", "image/apng", "image/gif", "image/jpeg", "image/png",
   "image/webp", "text/plain", "video/mp4", "video/ogg", "video/webm"]

/-- `MAX_FILE_SIZE = 50 * 1024 * 1024`. -/
def MAX_FILE_SIZE : Nat := 50 * 1024 * 1024

/-- The sniffing collaborator's result (`file-type`): a mime and extension. -/
structure FileTypeResult where
  mime : String
  ext : String
deriving DecidableEq

/-- `contentType?.split("/")[1]?.split("+")[0] ?? "bin"` for a present
header value: optional chaining yields `"bin"` when the header has no `/`. -/
def headerExtension (ct : String) : String :=
  match jsSplit ct "/" with
  | _ :: p1 :: _ => (jsSplit p1 "+").headD p1
  | _ => "bin"

/-- Content-type resolution of the `file` block: when the header is absent
or a generic placeholder, sniff the bytes, falling back to
`application/octet-stream` / `bin`; otherwise keep the declared type and
derive the extension from it. Returns `(contentType, extension)`. -/
def resolveContentType (hdr : Option String) (sniffed : Option FileTypeResult) :
    String × String :=
  match hdr with
  | none =>
    match sniffed with
    | some d => (d.mime, d.ext)
    | none => ("application/octet-stream", "bin")
  | some ct =>
    if ct = "application/octet-stream" ∨ ct = "application/x-www-form-urlencoded" then
      match sniffed with
      | some d => (d.mime, d.ext)
      | none => ("application/octet-stream", "bin")
    else (ct, headerExtension ct)

/-- `cd.split('filename="')[1].split('"')[0]`: when `cd` does not contain
`filename="`, the split has a single piece, indexing at 1 yields
`undefined`, and calling `.split` on it throws a `TypeError` (modelled as
`Except.error` carrying the Node message). -/
def extractFilename (cd : String) : Except String String :=
  match jsSplit cd "filename=\"" with
  | _ :: p1 :: _ => .ok ((jsSplit p1 "\"").headD p1)
  | _ => .error "Cannot read properties of undefined (reading 'split')"

/-- Filename resolution. The source gates on the TRUTHINESS of the header
value (`event.headers["content-disposition"] ? extract : synthesize`): an
absent header and a present-but-empty one are both falsy, so both
synthesize `upload-<Date.now()>.<extension>`; only a non-empty value goes
through the (possibly throwing) extraction. -/
def resolveFilename (cdOpt : Option String) (now : Nat) (extension : String) :
    Except String String :=
  match cdOpt with
  | some cd =>
    if cd = "" then .ok ("upload-" ++ toString now ++ "." ++ extension)
    else extractFilename cd
  | none => .ok ("upload-" ++ toString now ++ "." ++ extension)

/-- The `upload` handler of `src/unnamed/part_001`, with the external
collaborators passed explicitly. Gate order follows the source: body
presence, size, content-type/filename resolution (which may throw, landing
in the outer catch as a 500), username presence, allow-list membership,
mime allow-list, key allocation, put, success assembly. -/
def upload (event : RequestEvent) (env : Env) (bucketName : String)
    (sniff : List Nat → Option FileTypeResult) (now : Nat)
    (suffix : Nat → String) (store : Store) : UploadOutcome :=
  match event.body with
  | none => ⟨⟨400, "ERR: Missing body", none⟩, false, none⟩
  | some buffer =>
    if buffer.length > MAX_FILE_SIZE then
      ⟨⟨413, "ERR: File too large", none⟩, false, none⟩
    else
      let resolved := resolveContentType event.contentType (sniff buffer)
      match resolveFilename event.contentDisposition now resolved.2 with
      | .error msg =>
        ⟨⟨500, "ERR: Application error: " ++ msg, none⟩, false, none⟩
      | .ok filename =>
        match event.sojuUsername with
        | none => ⟨⟨400, "ERR: Missing `username`", none⟩, false, none⟩
        | some username =>
          let allowedUsernames := jsSplit (env.allowList.getD "") ","
          if !(allowedUsernames.contains username) then
            ⟨⟨403, "ERR: Invalid username", none⟩, false, none⟩
          else if !(ALLOWED_MIME_TYPES.contains resolved.1) then
            ⟨⟨400, "ERR: Content type " ++ resolved.1 ++ " is not allowed", none⟩,
              false, none⟩
          else
            match uniqueFilenameForBucket filename store.probe suffix with
            | .error msg =>
              ⟨⟨500, "ERR: Application error: " ++ msg, none⟩, false, none⟩
            | .ok newFilename =>
              match store.putResult with
              | .error msg =>
                ⟨⟨500, "ERR: Application error: " ++ msg, none⟩, true, some resolved.1⟩
              | .ok _ =>
                let domain :=
                  match env.cdnDomain with
                  | some d =>
                    if d = "" then bucketName ++ ".s3.amazonaws.com" else d
                  | none => bucketName ++ ".s3.amazonaws.com"
                let url := "https://" ++ domain ++ "/" ++ newFilename
                ⟨⟨201, "SUCCESS: " ++ url, some url⟩, true, some resolved.1⟩

/-! ### Helper lemmas -/

/-- The allocator (called with the default 3 attempts) always returns
`Except.ok`: the exhaustion error thrown at depth 0 is caught by the
enclosing call's `catch`, so it can never reach the caller. -/
theorem uniqueFilenameForBucket_isOk (filename : String)
    (probe : String → HeadOutcome) (suffix : Nat → String) :
    ∃ key, uniqueFilenameForBucket filename probe suffix = .ok key := by
  unfold uniqueFilenameForBucket
  simp only [uniqueFilenameForBucketAux]
  cases probe (filenameWithRandomSuffix filename (suffix 0)) <;>
    cases probe (filenameWithRandomSuffix filename (suffix 1)) <;>
      cases probe (filenameWithRandomSuffix filename (suffix 2)) <;> simp

/-! ### Claim theorems -/

/-- C1: for a filename containing a dot the derived key is
`<stem>-<suffix>.<ext>` as claimed, but for a dot-free filename the code
does NOT return `<filename>-<suffix>`: `split(".").pop()` yields the whole
filename (never `undefined`), so the whole filename is treated as the
extension and the key becomes `-<suffix>.<filename>`. -/
theorem filenameWithRandomSuffix_dotfree_misplaces_suffix :
    filenameWithRandomSuffix "example.jpg" "00000000" = "example-00000000.jpg"
    ∧ filenameWithRandomSuffix "abc" "00000000" = "-00000000.abc"
    ∧ filenameWithRandomSuffix "abc" "00000000" ≠ "abc-00000000" := by decide

/-- C6 (counterexample): with `USERNAME_ALLOW_LIST` unset, a request whose
`soju-username` header is the empty string passes the identity check and
the upload succeeds with 201 — it is not rejected with 403, because
splitting the empty allow-list on `,` yields a list containing the empty
string. -/
theorem upload_empty_allowList_empty_username_accepted :
    (upload ⟨some "image/png", some "attachment; filename=\"a.png\"", some "", some [1, 2, 3]⟩
        ⟨none, none⟩ "bkt" (fun _ => none) 0 (fun _ => "00000000")
        ⟨fun _ => HeadOutcome.notFound, .ok ()⟩).response.statusCode = 201 := by decide

/-- C7: when the existence probe reports every candidate occupied, the
allocator does NOT fail fatally: the recursive call sits inside the `try`
block, so the depth-0 exhaustion throw is caught by the previous attempt's
`catch`, which returns that attempt's (occupied) candidate; the pipeline
then proceeds to the write and answers 201. -/
theorem uniqueFilenameForBucket_exhaustion_swallowed :
    uniqueFilenameForBucket "a.png" (fun _ => HeadOutcome.found)
        (fun i => ["s0", "s1", "s2"].getD i "") = .ok "a-s2.png"
    ∧ (upload ⟨some "image/png", some "attachment; filename=\"a.png\"", some "alice", some [1, 2, 3]⟩
        ⟨some "alice", none⟩ "bkt" (fun _ => none) 0 (fun i => ["s0", "s1", "s2"].getD i "")
        ⟨fun _ => HeadOutcome.found, .ok ()⟩).putAttempted = true
    ∧ (upload ⟨some "image/png", some "attachment; filename=\"a.png\"", some "alice", some [1, 2, 3]⟩
        ⟨some "alice", none⟩ "bkt" (fun _ => none) 0 (fun i => ["s0", "s1", "s2"].getD i "")
        ⟨fun _ => HeadOutcome.found, .ok ()⟩).response.statusCode = 201 := by decide

/-- C9: an exception other than not-found raised by the blob store during
the existence probe (here `AccessDenied` on the very first probe) is
swallowed by the allocator's bare `catch` and treated as "key is free":
the handler proceeds to the write and answers 201, instead of surfacing a
500 embedding the error's message. -/
theorem uniqueFilenameForBucket_probe_error_treated_as_free :
    uniqueFilenameForBucket "a.png" (fun _ => HeadOutcome.error "AccessDenied")
        (fun _ => "00000000") = .ok "a-00000000.png"
    ∧ (upload ⟨some "image/png", some "attachment; filename=\"a.png\"", some "alice", some [1, 2, 3]⟩
        ⟨some "alice", none⟩ "bkt" (fun _ => none) 0 (fun _ => "00000000")
        ⟨fun _ => HeadOutcome.error "AccessDenied", .ok ()⟩).response.statusCode = 201 := by decide

/-- C8 (counterexample): a request that passes every validation gate but
whose `PutObjectCommand` rejects gets a non-success 500 response even
though the put WAS invoked, so "the put is never invoked on any
non-success response" is false as stated. -/
theorem upload_put_failure_nonsuccess_after_put :
    (upload ⟨some "image/png", some "attachment; filename=\"a.png\"", some "alice", some [1, 2, 3]⟩
        ⟨some "alice", none⟩ "bkt" (fun _ => none) 0 (fun _ => "00000000")
        ⟨fun _ => HeadOutcome.notFound, .error "boom"⟩).response.statusCode = 500
    ∧ (upload ⟨some "image/png", some "attachment; filename=\"a.png\"", some "alice", some [1, 2, 3]⟩
        ⟨some "alice", none⟩ "bkt" (fun _ => none) 0 (fun _ => "00000000")
        ⟨fun _ => HeadOutcome.notFound, .error "boom"⟩).putAttempted = true := by decide

/-- C10 (counterexample): two requests whose `content-disposition` header
is present but lacks the `filename="` token and which do NOT get the
claimed 500. First, with no body, the body-presence gate runs before
filename extraction and answers 400 ("Missing body"). Second, with a valid
body but the header equal to the empty string — present, yet falsy in
JavaScript — the ternary synthesizes the fallback `upload-<now>.<ext>`
filename instead of extracting, and the upload succeeds with 201. -/
theorem upload_bad_disposition_not_always_500 :
    (upload ⟨some "image/png", some "attachment", some "alice", none⟩
        ⟨some "alice", none⟩ "bkt" (fun _ => none) 0 (fun _ => "00000000")
        ⟨fun _ => HeadOutcome.notFound, .ok ()⟩).response
      = ⟨400, "ERR: Missing body", none⟩
    ∧ (upload ⟨some "image/png", some "", some "alice", some [1, 2, 3]⟩
        ⟨some "alice", none⟩ "bkt" (fun _ => none) 0 (fun _ => "00000000")
        ⟨fun _ => HeadOutcome.notFound, .ok ()⟩).response
      = ⟨201, "SUCCESS: https://bkt.s3.amazonaws.com/upload-0-00000000.png",
         some "https://bkt.s3.amazonaws.com/upload-0-00000000.png"⟩ := by decide

/-- Case analysis of `upload`: every invocation falls into one of six
outcome shapes, and the put is attempted exactly in the last two (the put
failing with 500, or succeeding with 201). -/
theorem upload_outcome_cases (event : RequestEvent) (env : Env) (bucketName : String)
    (sniff : List Nat → Option FileTypeResult) (now : Nat) (suffix : Nat → String)
    (store : Store) :
    ((upload event env bucketName sniff now suffix store).response.statusCode = 400
       ∧ (upload event env bucketName sniff now suffix store).putAttempted = false)
    ∨ ((upload event env bucketName sniff now suffix store).response.statusCode = 413
       ∧ (upload event env bucketName sniff now suffix store).putAttempted = false
       ∧ ∃ b, event.body = some b ∧ b.length > MAX_FILE_SIZE)
    ∨ ((upload event env bucketName sniff now suffix store).response.statusCode = 500
       ∧ (upload event env bucketName sniff now suffix store).putAttempted = false)
    ∨ ((upload event env bucketName sniff now suffix store).response.statusCode = 403
       ∧ (upload event env bucketName sniff now suffix store).putAttempted = false)
    ∨ ((upload event env bucketName sniff now suffix store).response.statusCode = 500
       ∧ (upload event env bucketName sniff now suffix store).putAttempted = true
       ∧ ∃ m, store.putResult = .error m)
    ∨ ((upload event env bucketName sniff now suffix store).response.statusCode = 201
       ∧ (upload event env bucketName sniff now suffix store).putAttempted = true
       ∧ store.putResult = .ok ()) := by
  simp only [upload]
  split
  · left; exact ⟨rfl, rfl⟩
  · rename_i buffer heq
    split
    · rename_i hsize
      right; left; exact ⟨rfl, rfl, buffer, heq, hsize⟩
    · split
      · right; right; left; exact ⟨rfl, rfl⟩
      · split
        · left; exact ⟨rfl, rfl⟩
        · split
          · right; right; right; left; exact ⟨rfl, rfl⟩
          · split
            · left; exact ⟨rfl, rfl⟩
            · split
              · right; right; left; exact ⟨rfl, rfl⟩
              · split
                · rename_i msg hput
                  right; right; right; right; left; exact ⟨rfl, rfl, msg, hput⟩
                · rename_i u hput
                  right; right; right; right; right
                  exact ⟨rfl, rfl, by cases u; exact hput⟩

/-- C2: a request that passes every validation gate and whose blob-store
write succeeds is answered 201 with body `SUCCESS: <url>` and a `location`
header equal to that same url, where the url's host is `CDN_DOMAIN` when
set and non-empty and `<bucket>.s3.amazonaws.com` otherwise. (Key
allocation always succeeds, see `uniqueFilenameForBucket_isOk`.) -/
theorem upload_success_response
    (ct cdOpt : Option String) (u : String) (buffer : List Nat) (env : Env)
    (bucketName : String) (sniff : List Nat → Option FileTypeResult) (now : Nat)
    (suffix : Nat → String) (probe : String → HeadOutcome)
    (hsize : ¬ buffer.length > MAX_FILE_SIZE)
    (hfile : ∃ f, resolveFilename cdOpt now (resolveContentType ct (sniff buffer)).2 = .ok f)
    (huser : (jsSplit (env.allowList.getD "") ",").contains u = true)
    (hmime : ALLOWED_MIME_TYPES.contains (resolveContentType ct (sniff buffer)).1 = true) :
    ∃ key,
      (upload ⟨ct, cdOpt, some u, some buffer⟩ env bucketName sniff now suffix
          ⟨probe, .ok ()⟩).response =
        ⟨201,
         "SUCCESS: " ++ ("https://" ++ (match env.cdnDomain with
            | some d => if d = "" then bucketName ++ ".s3.amazonaws.com" else d
            | none => bucketName ++ ".s3.amazonaws.com") ++ "/" ++ key),
         some ("https://" ++ (match env.cdnDomain with
            | some d => if d = "" then bucketName ++ ".s3.amazonaws.com" else d
            | none => bucketName ++ ".s3.amazonaws.com") ++ "/" ++ key)⟩ := by
  obtain ⟨f, hf⟩ := hfile
  obtain ⟨key, hkey⟩ := uniqueFilenameForBucket_isOk f probe suffix
  have huser2 : u ∈ jsSplit (env.allowList.getD "") "," := by simpa using huser
  have hmime2 : (resolveContentType ct (sniff buffer)).1 ∈ ALLOWED_MIME_TYPES := by
    simpa using hmime
  refine ⟨key, ?_⟩
  simp [upload, hsize, hf, huser2, hmime2, hkey]

/-- C3: for a request declaring `application/octet-stream` whose body
sniffs to mime `m` (with the other gates passing), the request is accepted
with 201 if and only if `m` is in `ALLOWED_MIME_TYPES`, and when accepted
the content type handed to the put is the sniffed `m`, not
`application/octet-stream`; when sniffing is inconclusive the resolved
type falls back to `application/octet-stream` with extension `bin`. -/
theorem upload_sniffed_type_decides_acceptance
    (cdOpt : Option String) (u : String) (buffer : List Nat) (env : Env)
    (bucketName : String) (sniff : List Nat → Option FileTypeResult) (now : Nat)
    (suffix : Nat → String) (probe : String → HeadOutcome) (m e : String)
    (hsize : ¬ buffer.length > MAX_FILE_SIZE)
    (hsniff : sniff buffer = some ⟨m, e⟩)
    (hfile : ∃ f, resolveFilename cdOpt now e = .ok f)
    (huser : (jsSplit (env.allowList.getD "") ",").contains u = true) :
    ((upload ⟨some "application/octet-stream", cdOpt, some u, some buffer⟩ env bucketName
        sniff now suffix ⟨probe, .ok ()⟩).response.statusCode = 201
      ↔ ALLOWED_MIME_TYPES.contains m = true)
    ∧ (ALLOWED_MIME_TYPES.contains m = true →
        (upload ⟨some "application/octet-stream", cdOpt, some u, some buffer⟩ env bucketName
            sniff now suffix ⟨probe, .ok ()⟩).putContentType = some m)
    ∧ resolveContentType (some "application/octet-stream") (sniff buffer) = (m, e)
    ∧ resolveContentType (some "application/octet-stream") none
        = ("application/octet-stream", "bin") := by
  obtain ⟨f, hf⟩ := hfile
  obtain ⟨key, hkey⟩ := uniqueFilenameForBucket_isOk f probe suffix
  have huser2 : u ∈ jsSplit (env.allowList.getD "") "," := by simpa using huser
  have hres : resolveContentType (some "application/octet-stream") (sniff buffer) = (m, e) := by
    simp [resolveContentType, hsniff]
  by_cases hc : ALLOWED_MIME_TYPES.contains m = true
  · have hm : m ∈ ALLOWED_MIME_TYPES := by simpa using hc
    refine ⟨?_, fun _ => ?_, hres, by decide⟩ <;>
      simp [upload, hsize, hres, hf, huser2, hm, hkey, hc]
  · have hm : m ∉ ALLOWED_MIME_TYPES := by simpa using hc
    refine ⟨?_, fun h => absurd h hc, hres, by decide⟩
    have h400 : (upload ⟨some "application/octet-stream", cdOpt, some u, some buffer⟩
        env bucketName sniff now suffix ⟨probe, .ok ()⟩).response.statusCode = 400 := by
      simp [upload, hsize, hres, hf, huser2, hm, hkey]
    rw [h400]
    constructor
    · intro h; exact absurd h (by decide)
    · intro h; exact absurd h hc

/-- C4: for a request with a body, the response is 413 with body
`ERR: File too large` exactly when the decoded byte length exceeds
`MAX_FILE_SIZE` (50 MiB), regardless of any header's validity; in
particular a body of exactly 50 MiB is never answered 413. -/
theorem upload_size_limit_gate
    (event : RequestEvent) (env : Env) (bucketName : String)
    (sniff : List Nat → Option FileTypeResult) (now : Nat) (suffix : Nat → String)
    (store : Store) (buffer : List Nat)
    (hbody : event.body = some buffer) :
    ((upload event env bucketName sniff now suffix store).response.statusCode = 413
       ↔ buffer.length > MAX_FILE_SIZE)
    ∧ (buffer.length > MAX_FILE_SIZE →
        (upload event env bucketName sniff now suffix store).response
          = ⟨413, "ERR: File too large", none⟩) := by
  have hfwd : buffer.length > MAX_FILE_SIZE →
      (upload event env bucketName sniff now suffix store).response
        = ⟨413, "ERR: File too large", none⟩ := by
    intro h
    simp [upload, hbody, h]
  refine ⟨⟨fun h413 => ?_, fun h => by rw [hfwd h]⟩, hfwd⟩
  rcases upload_outcome_cases event env bucketName sniff now suffix store with
    h | h | h | h | h | h
  · exact absurd (h.1.symm.trans h413) (by decide)
  · obtain ⟨_, _, b, hb, hlen⟩ := h
    rw [hbody, Option.some_inj] at hb
    subst hb
    exact hlen
  · exact absurd (h.1.symm.trans h413) (by decide)
  · exact absurd (h.1.symm.trans h413) (by decide)
  · exact absurd (h.1.symm.trans h413) (by decide)
  · exact absurd (h.1.symm.trans h413) (by decide)

/-- C5: for a request with an in-limit body and resolvable filename and
content type, a missing `soju-username` header is answered 400 with body
carrying "Missing username", and a present username outside the
comma-separated allow-list is answered 403 `ERR: Invalid username`, even
when the allow-list contains other usernames. -/
theorem upload_identity_gate
    (ct cdOpt uopt : Option String) (buffer : List Nat) (env : Env)
    (bucketName : String) (sniff : List Nat → Option FileTypeResult) (now : Nat)
    (suffix : Nat → String) (store : Store)
    (hsize : ¬ buffer.length > MAX_FILE_SIZE)
    (hfile : ∃ f, resolveFilename cdOpt now (resolveContentType ct (sniff buffer)).2 = .ok f)
    (hu : uopt = none ∨ ∃ u, uopt = some u ∧
        (jsSplit (env.allowList.getD "") ",").contains u = false) :
    (upload ⟨ct, cdOpt, uopt, some buffer⟩ env bucketName sniff now suffix store).response
      = match uopt with
        | none => ⟨400, "ERR: Missing `username`", none⟩
        | some _ => ⟨403, "ERR: Invalid username", none⟩ := by
  obtain ⟨f, hf⟩ := hfile
  rcases hu with h | ⟨u, hu, hcontains⟩
  · subst h
    simp [upload, hsize, hf]
  · subst hu
    have hu2 : u ∉ jsSplit (env.allowList.getD "") "," := by simpa using hcontains
    simp [upload, hsize, hf, hu2]

/-- C6 (amended): when `USERNAME_ALLOW_LIST` is unset or the empty
string, every request whose `soju-username` value is NOT the empty string
is rejected 403 at the identity check; the empty-string username is the
sole exception (see `upload_empty_allowList_empty_username_accepted`),
since splitting the empty allow-list on `,` yields a list containing the
empty string. -/
theorem upload_empty_allowList_rejects_nonempty_username
    (ct cdOpt : Option String) (u : String) (buffer : List Nat) (env : Env)
    (bucketName : String) (sniff : List Nat → Option FileTypeResult) (now : Nat)
    (suffix : Nat → String) (store : Store)
    (hlist : env.allowList = none ∨ env.allowList = some "")
    (hsize : ¬ buffer.length > MAX_FILE_SIZE)
    (hfile : ∃ f, resolveFilename cdOpt now (resolveContentType ct (sniff buffer)).2 = .ok f)
    (hu : u ≠ "") :
    (upload ⟨ct, cdOpt, some u, some buffer⟩ env bucketName sniff now suffix store).response
      = ⟨403, "ERR: Invalid username", none⟩ := by
  obtain ⟨f, hf⟩ := hfile
  have hl : env.allowList.getD "" = "" := by rcases hlist with h | h <;> simp [h]
  have hsplitEmpty : jsSplit "" "," = [""] := by decide
  have hu2 : u ∉ jsSplit (env.allowList.getD "") "," := by
    rw [hl, hsplitEmpty]
    simpa using hu
  simp [upload, hsize, hf, hu2]

/-- C8 (amended): every validation rejection (status 400, 403 or 413)
occurs strictly before the write, so the put is never invoked for them;
and on any non-201 response no object is successfully stored — the only
error response that follows an invoked put is the 500 produced by the put
itself failing. -/
theorem upload_no_put_before_rejection
    (event : RequestEvent) (env : Env) (bucketName : String)
    (sniff : List Nat → Option FileTypeResult) (now : Nat) (suffix : Nat → String)
    (store : Store) :
    (((upload event env bucketName sniff now suffix store).response.statusCode = 400
        ∨ (upload event env bucketName sniff now suffix store).response.statusCode = 403
        ∨ (upload event env bucketName sniff now suffix store).response.statusCode = 413)
      → (upload event env bucketName sniff now suffix store).putAttempted = false)
    ∧ ((upload event env bucketName sniff now suffix store).response.statusCode ≠ 201
      → ¬((upload event env bucketName sniff now suffix store).putAttempted = true
          ∧ store.putResult = Except.ok ())) := by
  rcases upload_outcome_cases event env bucketName sniff now suffix store with
    h | h | h | h | h | h
  · exact ⟨fun _ => h.2, fun _ hput => absurd (h.2.symm.trans hput.1) (by decide)⟩
  · exact ⟨fun _ => h.2.1, fun _ hput => absurd (h.2.1.symm.trans hput.1) (by decide)⟩
  · exact ⟨fun _ => h.2, fun _ hput => absurd (h.2.symm.trans hput.1) (by decide)⟩
  · exact ⟨fun _ => h.2, fun _ hput => absurd (h.2.symm.trans hput.1) (by decide)⟩
  · refine ⟨fun hcode => ?_, fun _ hput => ?_⟩
    · rcases hcode with hc | hc | hc <;> exact absurd (h.1.symm.trans hc) (by decide)
    · obtain ⟨_, _, m, hm⟩ := h
      rw [hm] at hput
      exact absurd hput.2 (by simp)
  · refine ⟨fun hcode => ?_, fun hne _ => hne h.1⟩
    rcases hcode with hc | hc | hc <;> exact absurd (h.1.symm.trans hc) (by decide)

/-- C10 (amended): for a request with a body within the size limit whose
`content-disposition` header is present with a non-empty (truthy) value
lacking the `filename="` token, no fallback filename is synthesized: the
extraction throws and the outer catch answers 500 with a body beginning
`ERR: Application error:`, and the put is never attempted. -/
theorem upload_bad_disposition_500
    (ct uopt : Option String) (cd : String) (buffer : List Nat) (env : Env)
    (bucketName : String) (sniff : List Nat → Option FileTypeResult) (now : Nat)
    (suffix : Nat → String) (store : Store)
    (hsize : ¬ buffer.length > MAX_FILE_SIZE)
    (hne : cd ≠ "")
    (hcd : (jsSplit cd "filename=\"").length = 1) :
    (upload ⟨ct, some cd, uopt, some buffer⟩ env bucketName sniff now suffix store).response
        = ⟨500, "ERR: Application error: Cannot read properties of undefined (reading 'split')",
           none⟩
    ∧ jsStartsWith (upload ⟨ct, some cd, uopt, some buffer⟩ env bucketName sniff now suffix
        store).response.body "ERR: Application error:" = true
    ∧ (upload ⟨ct, some cd, uopt, some buffer⟩ env bucketName sniff now suffix
        store).putAttempted = false := by
  have hext : extractFilename cd
      = .error "Cannot read properties of undefined (reading 'split')" := by
    unfold extractFilename
    rcases hsplit : jsSplit cd "filename=\"" with _ | ⟨p, _ | ⟨q, t⟩⟩
    · rfl
    · rfl
    · rw [hsplit] at hcd
      simp at hcd
  have hmain : (upload ⟨ct, some cd, uopt, some buffer⟩ env bucketName sniff now suffix
      store).response
      = ⟨500, "ERR: Application error: Cannot read properties of undefined (reading 'split')",
         none⟩ := by
    simp [upload, hsize, resolveFilename, hne, hext]
  have hput : (upload ⟨ct, some cd, uopt, some buffer⟩ env bucketName sniff now suffix
      store).putAttempted = false := by
    simp [upload, hsize, resolveFilename, hne, hext]
  refine ⟨hmain, ?_, hput⟩
  rw [hmain]
  decide

/-- Witness for `upload_success_response` at a concrete accepted request. -/
theorem upload_success_response_witness :
    (¬ ([1, 2, 3] : List Nat).length > MAX_FILE_SIZE)
    ∧ (∃ f, resolveFilename (some "attachment; filename=\"a.png\"") 0
        (resolveContentType (some "image/png")
          ((fun _ => none) [1, 2, 3])).2 = .ok f)
    ∧ ((jsSplit ((⟨some "alice", none⟩ : Env).allowList.getD "") ",").contains "alice" = true)
    ∧ (ALLOWED_MIME_TYPES.contains
        (resolveContentType (some "image/png") ((fun _ => none) [1, 2, 3])).1 = true)
    ∧ ∃ key,
      (upload ⟨some "image/png", some "attachment; filename=\"a.png\"", some "alice",
          some [1, 2, 3]⟩ ⟨some "alice", none⟩ "bkt" (fun _ => none) 0 (fun _ => "00000000")
          ⟨fun _ => HeadOutcome.notFound, .ok ()⟩).response =
        ⟨201,
         "SUCCESS: " ++ ("https://" ++ (match (⟨some "alice", none⟩ : Env).cdnDomain with
            | some d => if d = "" then "bkt" ++ ".s3.amazonaws.com" else d
            | none => "bkt" ++ ".s3.amazonaws.com") ++ "/" ++ key),
         some ("https://" ++ (match (⟨some "alice", none⟩ : Env).cdnDomain with
            | some d => if d = "" then "bkt" ++ ".s3.amazonaws.com" else d
            | none => "bkt" ++ ".s3.amazonaws.com") ++ "/" ++ key)⟩ :=
  ⟨by decide, ⟨"a.png", by decide⟩, by decide, by decide,
   upload_success_response (some "image/png") (some "attachment; filename=\"a.png\"")
     "alice" [1, 2, 3] ⟨some "alice", none⟩ "bkt" (fun _ => none) 0 (fun _ => "00000000")
     (fun _ => HeadOutcome.notFound) (by decide) ⟨"a.png", by decide⟩ (by decide) (by decide)⟩

/-- Witness for `upload_sniffed_type_decides_acceptance` with a body
sniffing to `image/png`. -/
theorem upload_sniffed_type_decides_acceptance_witness :
    (¬ ([1, 2, 3] : List Nat).length > MAX_FILE_SIZE)
    ∧ ((fun _ => some (⟨"image/png", "png"⟩ : FileTypeResult)) [1, 2, 3]
        = some ⟨"image/png", "png"⟩)
    ∧ (∃ f, resolveFilename (some "attachment; filename=\"a.png\"") 0 "png" = .ok f)
    ∧ ((jsSplit ((⟨some "alice", none⟩ : Env).allowList.getD "") ",").contains "alice" = true)
    ∧ (((upload ⟨some "application/octet-stream", some "attachment; filename=\"a.png\"",
          some "alice", some [1, 2, 3]⟩ ⟨some "alice", none⟩ "bkt"
          (fun _ => some ⟨"image/png", "png"⟩) 0 (fun _ => "00000000")
          ⟨fun _ => HeadOutcome.notFound, .ok ()⟩).response.statusCode = 201
        ↔ ALLOWED_MIME_TYPES.contains "image/png" = true)
      ∧ (ALLOWED_MIME_TYPES.contains "image/png" = true →
          (upload ⟨some "application/octet-stream", some "attachment; filename=\"a.png\"",
            some "alice", some [1, 2, 3]⟩ ⟨some "alice", none⟩ "bkt"
            (fun _ => some ⟨"image/png", "png"⟩) 0 (fun _ => "00000000")
            ⟨fun _ => HeadOutcome.notFound, .ok ()⟩).putContentType = some "image/png")
      ∧ resolveContentType (some "application/octet-stream")
          ((fun _ => some (⟨"image/png", "png"⟩ : FileTypeResult)) [1, 2, 3])
          = ("image/png", "png")
      ∧ resolveContentType (some "application/octet-stream") none
          = ("application/octet-stream", "bin")) :=
  ⟨by decide, rfl, ⟨"a.png", by decide⟩, by decide,
   upload_sniffed_type_decides_acceptance (some "attachment; filename=\"a.png\"") "alice"
     [1, 2, 3] ⟨some "alice", none⟩ "bkt" (fun _ => some ⟨"image/png", "png"⟩) 0
     (fun _ => "00000000") (fun _ => HeadOutcome.notFound) "image/png" "png"
     (by decide) rfl ⟨"a.png", by decide⟩ (by decide)⟩

/-- Witness for `upload_size_limit_gate` at a body of 50 MiB + 1 byte. -/
theorem upload_size_limit_gate_witness :
    ((⟨some "image/png", some "attachment; filename=\"a.png\"", some "alice",
        some (List.replicate (MAX_FILE_SIZE + 1) 0)⟩ : RequestEvent).body
      = some (List.replicate (MAX_FILE_SIZE + 1) 0))
    ∧ (List.replicate (MAX_FILE_SIZE + 1) (0 : Nat)).length > MAX_FILE_SIZE
    ∧ (upload ⟨some "image/png", some "attachment; filename=\"a.png\"", some "alice",
        some (List.replicate (MAX_FILE_SIZE + 1) 0)⟩ ⟨some "alice", none⟩ "bkt"
        (fun _ => none) 0 (fun _ => "00000000")
        ⟨fun _ => HeadOutcome.notFound, .ok ()⟩).response
      = ⟨413, "ERR: File too large", none⟩ :=
  ⟨rfl, by rw [List.length_replicate]; exact Nat.lt_succ_self _,
   (upload_size_limit_gate ⟨some "image/png", some "attachment; filename=\"a.png\"",
      some "alice", some (List.replicate (MAX_FILE_SIZE + 1) 0)⟩ ⟨some "alice", none⟩ "bkt"
      (fun _ => none) 0 (fun _ => "00000000") ⟨fun _ => HeadOutcome.notFound, .ok ()⟩
      (List.replicate (MAX_FILE_SIZE + 1) 0) rfl).2
     (by rw [List.length_replicate]; exact Nat.lt_succ_self _)⟩

/-- Witness for `upload_identity_gate`: `mallory` against the allow-list
`alice,bob`. -/
theorem upload_identity_gate_witness :
    (¬ ([1, 2, 3] : List Nat).length > MAX_FILE_SIZE)
    ∧ (∃ f, resolveFilename (some "attachment; filename=\"a.png\"") 0
        (resolveContentType (some "image/png") ((fun _ => none) [1, 2, 3])).2 = .ok f)
    ∧ ((some "mallory" : Option String) = none
        ∨ ∃ u, (some "mallory" : Option String) = some u
          ∧ (jsSplit ((⟨some "alice,bob", none⟩ : Env).allowList.getD "") ",").contains u
              = false)
    ∧ (upload ⟨some "image/png", some "attachment; filename=\"a.png\"", some "mallory",
        some [1, 2, 3]⟩ ⟨some "alice,bob", none⟩ "bkt" (fun _ => none) 0 (fun _ => "00000000")
        ⟨fun _ => HeadOutcome.notFound, .ok ()⟩).response
      = ⟨403, "ERR: Invalid username", none⟩ :=
  ⟨by decide, ⟨"a.png", by decide⟩, Or.inr ⟨"mallory", rfl, by decide⟩,
   upload_identity_gate (some "image/png") (some "attachment; filename=\"a.png\"")
     (some "mallory") [1, 2, 3] ⟨some "alice,bob", none⟩ "bkt" (fun _ => none) 0
     (fun _ => "00000000") ⟨fun _ => HeadOutcome.notFound, .ok ()⟩ (by decide)
     ⟨"a.png", by decide⟩ (Or.inr ⟨"mallory", rfl, by decide⟩)⟩

/-- Witness for `upload_empty_allowList_rejects_nonempty_username`:
`mallory` with the allow-list unset. -/
theorem upload_empty_allowList_rejects_nonempty_username_witness :
    ((⟨none, none⟩ : Env).allowList = none ∨ (⟨none, none⟩ : Env).allowList = some "")
    ∧ (¬ ([1, 2, 3] : List Nat).length > MAX_FILE_SIZE)
    ∧ (∃ f, resolveFilename (some "attachment; filename=\"a.png\"") 0
        (resolveContentType (some "image/png") ((fun _ => none) [1, 2, 3])).2 = .ok f)
    ∧ ("mallory" : String) ≠ ""
    ∧ (upload ⟨some "image/png", some "attachment; filename=\"a.png\"", some "mallory",
        some [1, 2, 3]⟩ ⟨none, none⟩ "bkt" (fun _ => none) 0 (fun _ => "00000000")
        ⟨fun _ => HeadOutcome.notFound, .ok ()⟩).response
      = ⟨403, "ERR: Invalid username", none⟩ :=
  ⟨Or.inl rfl, by decide, ⟨"a.png", by decide⟩, by decide,
   upload_empty_allowList_rejects_nonempty_username (some "image/png")
     (some "attachment; filename=\"a.png\"") "mallory" [1, 2, 3] ⟨none, none⟩ "bkt"
     (fun _ => none) 0 (fun _ => "00000000") ⟨fun _ => HeadOutcome.notFound, .ok ()⟩
     (Or.inl rfl) (by decide) ⟨"a.png", by decide⟩ (by decide)⟩

/-- Witness for `upload_no_put_before_rejection` at a request rejected 400
for a missing body. -/
theorem upload_no_put_before_rejection_witness :
    (upload ⟨some "image/png", some "attachment; filename=\"a.png\"", some "alice", none⟩
        ⟨some "alice", none⟩ "bkt" (fun _ => none) 0 (fun _ => "00000000")
        ⟨fun _ => HeadOutcome.notFound, .ok ()⟩).putAttempted = false
    ∧ ¬((upload ⟨some "image/png", some "attachment; filename=\"a.png\"", some "alice", none⟩
          ⟨some "alice", none⟩ "bkt" (fun _ => none) 0 (fun _ => "00000000")
          ⟨fun _ => HeadOutcome.notFound, .ok ()⟩).putAttempted = true
        ∧ (⟨fun _ => HeadOutcome.notFound, .ok ()⟩ : Store).putResult = Except.ok ()) :=
  ⟨(upload_no_put_before_rejection ⟨some "image/png",
      some "attachment; filename=\"a.png\"", some "alice", none⟩ ⟨some "alice", none⟩ "bkt"
      (fun _ => none) 0 (fun _ => "00000000") ⟨fun _ => HeadOutcome.notFound, .ok ()⟩).1
     (Or.inl (by decide)),
   (upload_no_put_before_rejection ⟨some "image/png",
      some "attachment; filename=\"a.png\"", some "alice", none⟩ ⟨some "alice", none⟩ "bkt"
      (fun _ => none) 0 (fun _ => "00000000") ⟨fun _ => HeadOutcome.notFound, .ok ()⟩).2
     (by decide)⟩

/-- Witness for `upload_bad_disposition_500` at the header value
`attachment`. -/
theorem upload_bad_disposition_500_witness :
    (¬ ([1, 2, 3] : List Nat).length > MAX_FILE_SIZE)
    ∧ ("attachment" : String) ≠ ""
    ∧ ((jsSplit "attachment" "filename=\"").length = 1)
    ∧ ((upload ⟨some "image/png", some "attachment", some "alice", some [1, 2, 3]⟩
          ⟨some "alice", none⟩ "bkt" (fun _ => none) 0 (fun _ => "00000000")
          ⟨fun _ => HeadOutcome.notFound, .ok ()⟩).response
        = ⟨500, "ERR: Application error: Cannot read properties of undefined (reading 'split')",
           none⟩
      ∧ jsStartsWith (upload ⟨some "image/png", some "attachment", some "alice", some [1, 2, 3]⟩
          ⟨some "alice", none⟩ "bkt" (fun _ => none) 0 (fun _ => "00000000")
          ⟨fun _ => HeadOutcome.notFound, .ok ()⟩).response.body "ERR: Application error:"
          = true
      ∧ (upload ⟨some "image/png", some "attachment", some "alice", some [1, 2, 3]⟩
          ⟨some "alice", none⟩ "bkt" (fun _ => none) 0 (fun _ => "00000000")
          ⟨fun _ => HeadOutcome.notFound, .ok ()⟩).putAttempted = false) :=
  ⟨by decide, by decide, by decide,
   upload_bad_disposition_500 (some "image/png") (some "alice") "attachment" [1, 2, 3]
     ⟨some "alice", none⟩ "bkt" (fun _ => none) 0 (fun _ => "00000000")
     ⟨fun _ => HeadOutcome.notFound, .ok ()⟩ (by decide) (by decide) (by decide)⟩

end SojuUpload
